import Mathlib

/-
Verification of the configuration-driven external-service invocation engine
of this repository against its natural-language specification.

The definitions below are a shallow embedding of the Python source:
  - src/utils/external_client.py  (ExternalClient: template resolver and
    the retrying HTTP invocation loop),
  - src/utils/auth.py             (obtener_token: the bearer-token cache),
  - src/db/servicios_repo.py      (obtener_servicio_externo_por_codigo),
  - src/utils/config.py           (TOKEN_DATA cache slot).

Python dynamic values (JSON-like data) are embedded as the inductive type
`Value`.  The HTTP transport, the persistence store and the clock are
modelled as explicit oracles passed to the embedded functions, so that
every definition is executable and every attempt sequence is a plain
function from the attempt index to its transport-level result.
-/

/-- JSON-like dynamic value, embedding the Python values that flow through
headers, bodies and parsed HTTP responses. -/
inductive Value where
  | vNull : Value
  | vBool : Bool → Value
  | vInt : Int → Value
  | vStr : String → Value
  | vList : List Value → Value
  | vDict : List (String × Value) → Value
deriving Repr

/-- Python dict lookup `d.get(key)` on an association list (first match). -/
def lookupField : List (String × Value) → String → Option Value
  | [], _ => none
  | (k, v) :: rest, key => if k = key then some v else lookupField rest key

/-- Python truthiness of a JSON-like value (`bool(v)`). -/
def valueTruthy : Value → Bool
  | Value.vNull => false
  | Value.vBool b => b
  | Value.vInt n => !(n == 0)
  | Value.vStr s => !(s == "")
  | Value.vList items => !items.isEmpty
  | Value.vDict fields => !fields.isEmpty

/-- Python truthiness of an optional value (`None` is falsy). -/
def truthyOpt : Option Value → Bool
  | some v => valueTruthy v
  | none => false

/-- Python `a or b` on optional values: `a` when truthy, otherwise `b`. -/
def pyOrOpt (a b : Option Value) : Option Value :=
  match a with
  | some v => if valueTruthy v then some v else b
  | none => b

/-- The substitution context: `ExternalClient.dynamic_values`, a mapping
from placeholder name to the replacement rendered as a string
(`str(self.dynamic_values[var_name])` in the source). -/
def lookupCtx (ctx : List (String × String)) (key : String) : Option String :=
  match ctx with
  | [] => none
  | (k, v) :: rest => if k = key then some v else lookupCtx rest key

mutual

/-- Substitution scan over a character list, embedding
`VAR_PATTERN.sub(replacer, text)` for the compiled pattern
`\x7b([^\x7d]+)\x7d` of `ExternalClient._replace_variables`: outside a
token, characters are copied until an opening brace starts a candidate
token. -/
def varSub (ctx : List (String × String)) : List Char → List Char
  | [] => []
  | c :: cs => if c = '{' then varToken ctx [] cs else c :: varSub ctx cs

/-- Inside a candidate token, `acc` holds the characters read since the
opening brace (the greedy `[^\x7d]+`).  At the first closing brace a
non-empty name bound in the context is replaced by the bound string, an
unbound or empty name is left verbatim (`match.group(0)` for unbound
names; an immediate closing brace never matches the pattern); when the
input ends with no closing brace there is no match and the scanned text
is emitted unchanged. -/
def varToken (ctx : List (String × String)) (acc : List Char) : List Char → List Char
  | [] => '{' :: acc
  | c :: cs =>
    if c = '}' then
      if acc = [] then '{' :: '}' :: varSub ctx cs
      else
        match lookupCtx ctx (String.mk acc) with
        | some v => v.data ++ varSub ctx cs
        | none => '{' :: (acc ++ '}' :: varSub ctx cs)
    else varToken ctx (acc ++ [c]) cs

end

/-- `ExternalClient._replace_variables` on a string. -/
def replace_variables (ctx : List (String × String)) (s : String) : String :=
  String.mk (varSub ctx s.data)

mutual

/-- Field-by-field processing of a mapping, embedding the loop body of
`ExternalClient._process_dict`: string values get placeholder
substitution, nested mappings recurse, list values are processed
element-wise, and every other value is copied unchanged. -/
def processFields (ctx : List (String × String)) : List (String × Value) → List (String × Value)
  | [] => []
  | (k, Value.vStr s) :: rest => (k, Value.vStr (replace_variables ctx s)) :: processFields ctx rest
  | (k, Value.vDict kvs) :: rest => (k, Value.vDict (processFields ctx kvs)) :: processFields ctx rest
  | (k, Value.vList items) :: rest => (k, Value.vList (processItems ctx items)) :: processFields ctx rest
  | (k, v) :: rest => (k, v) :: processFields ctx rest

/-- Element-wise processing of a list value, embedding the comprehension
`[self._process_dict(i) if isinstance(i, dict) else i for i in value]`:
only elements that are mappings are processed; strings, nested lists and
scalars inside a list are left untouched. -/
def processItems (ctx : List (String × String)) : List Value → List Value
  | [] => []
  | Value.vDict kvs :: rest => Value.vDict (processFields ctx kvs) :: processItems ctx rest
  | i :: rest => i :: processItems ctx rest

end

/-- `ExternalClient._process_dict`: processes a mapping recursively and
returns any non-mapping argument unchanged. -/
def process_dict (ctx : List (String × String)) : Value → Value
  | Value.vDict kvs => Value.vDict (processFields ctx kvs)
  | v => v

/-- Transport-level result of one HTTP attempt, as seen by the body of the
retry loop in `ExternalClient.run`: an HTTP response (status code, the
JSON parse of the body when `response.json()` succeeds, and the raw text),
or one of the exception classes the loop catches
(`httpx.TimeoutException`, `httpx.RequestError`, any other exception). -/
inductive TransportResult where
  | response : Nat → Option Value → String → TransportResult
  | timeoutErr : TransportResult
  | connectionErr : TransportResult
  | otherErr : String → TransportResult

/-- Value returned by `ExternalClient.run`: a plain dict
`\x7b"status": s, "data": d\x7d`, a `fastapi` `JSONResponse` (only the
timeout branch builds one), or the implicit `None` when the attempt loop
finishes without any `return` statement. -/
inductive RunOutcome where
  | dictResult : Nat → Value → RunOutcome
  | jsonResponse : Nat → Value → RunOutcome
  | fellThrough : RunOutcome

/-- Observable trace of one `ExternalClient.run` invocation: the returned
value, how many HTTP attempts were issued, and how many one-second
backoff sleeps (`asyncio.sleep(1)`) were performed. -/
structure RunTrace where
  outcome : RunOutcome
  attempts : Nat
  sleeps : Nat

/-- The body `\x7b"error": msg\x7d` used by the error returns of
`ExternalClient.run`. -/
def error_data (msg : String) : Value :=
  Value.vDict [("error", Value.vStr msg)]

/-- Embeds `data.get("data", \x7b\x7d)` applied to the parse of the
response body: when the body parses to a JSON object its `data` member is
extracted (defaulting to an empty dict); any other body — unparseable
text, which the bare `except` turns into `\x7b"raw_text": ...\x7d`, or a
non-object JSON document, whose `.get` raises into the same `except` —
yields the empty dict. -/
def extract_response_data : Option Value → Value
  | some (Value.vDict kvs) => (lookupField kvs "data").getD (Value.vDict [])
  | _ => Value.vDict []

/-- What the final loop iteration (`attempt == self.reintentos`) produces
for each transport result: a success dict for status 200/201, the
implicit `None` for any other HTTP response (the error branch only logs
and the loop ends), a 504 `JSONResponse` for a timeout, a 503 dict for a
connection error and a 500 dict for any other exception. -/
def last_attempt_outcome : TransportResult → RunOutcome
  | TransportResult.response code body _ =>
    if code = 200 ∨ code = 201 then RunOutcome.dictResult code (extract_response_data body)
    else RunOutcome.fellThrough
  | TransportResult.timeoutErr =>
    RunOutcome.jsonResponse 504 (error_data "Timeout al conectar con el servicio externo")
  | TransportResult.connectionErr =>
    RunOutcome.dictResult 503 (error_data "No se pudo conectar con el servicio externo")
  | TransportResult.otherErr msg => RunOutcome.dictResult 500 (error_data msg)

/-- The retry loop `for attempt in range(self.reintentos + 1)` of
`ExternalClient.run`.  `attempt` is the current loop index and
`remaining` the number of iterations still allowed after this one.  A
200/201 response returns immediately; any other HTTP response is logged
and the loop simply continues (no sleep); a caught exception sleeps one
second and retries while iterations remain, and produces its classified
error return on the last iteration. -/
def runLoop (transport : Nat → TransportResult) : Nat → Nat → RunTrace
  | attempt, 0 => ⟨last_attempt_outcome (transport attempt), 1, 0⟩
  | attempt, r + 1 =>
    match transport attempt with
    | TransportResult.response code body _ =>
      if code = 200 ∨ code = 201 then
        ⟨RunOutcome.dictResult code (extract_response_data body), 1, 0⟩
      else
        let t := runLoop transport (attempt + 1) r
        ⟨t.outcome, t.attempts + 1, t.sleeps⟩
    | TransportResult.timeoutErr =>
      let t := runLoop transport (attempt + 1) r
      ⟨t.outcome, t.attempts + 1, t.sleeps + 1⟩
    | TransportResult.connectionErr =>
      let t := runLoop transport (attempt + 1) r
      ⟨t.outcome, t.attempts + 1, t.sleeps + 1⟩
    | TransportResult.otherErr _ =>
      let t := runLoop transport (attempt + 1) r
      ⟨t.outcome, t.attempts + 1, t.sleeps + 1⟩

/-- The integration definition held by an `ExternalClient` instance
(constructor arguments of `ExternalClient.__init__`, loaded from the
`servicios_externos` row by `ExternalClient.from_code`), together with
the `dynamic_values` substitution context. -/
structure ExternalClient where
  nombre_servicio : String
  codigo : String
  url : String
  metodo : String
  timeout_ms : Nat
  reintentos : Nat
  header : Value
  body : Value
  dynamic_values : List (String × String)

/-- The request rendered once before the attempt loop of
`ExternalClient.run`: `final_url`, `final_headers` and `final_body`
(the body is rendered only when truthy, else an empty dict). -/
def ExternalClient.rendered_request (c : ExternalClient) : String × Value × Value :=
  ( replace_variables c.dynamic_values c.url
  , process_dict c.dynamic_values c.header
  , if valueTruthy c.body then process_dict c.dynamic_values c.body else Value.vDict [] )

/-- `ExternalClient.run`: renders the request once and executes the retry
loop starting at attempt index 0 with `reintentos` further iterations
allowed.  The HTTP transport is an oracle from attempt index to that
attempt's transport result; notification and audit writes are
best-effort side channels with no effect on the returned value and are
not modelled. -/
def ExternalClient.run (c : ExternalClient) (transport : Nat → TransportResult) : RunTrace :=
  runLoop transport 0 c.reintentos

/-- A concrete integration definition used by the counterexamples: the
spec's PING scenario shape with a configurable retry count. -/
def clientWithRetries (n : Nat) : ExternalClient :=
  ⟨"ping", "PING", "https://x/\x7bid\x7d", "GET", 1000, n, Value.vDict [], Value.vDict [], [("id", "42")]⟩

/-- A row of the `servicios_externos` table after the JSON normalisation
done by the repository (header/body already deserialised). -/
structure Servicio where
  nombre_servicio : String
  codigo : String
  url : String
  metodo : String
  timeout_ms : Nat
  reintentos : Nat
  header : Value
  body : Value

/-- `obtener_servicio_externo_por_codigo` (src/db/servicios_repo.py): the
persistence query is an oracle producing either the row found for the
code (`some`), no active row (`none`), or a raised exception
(`Except.error`).  The function's `try`/`except` swallows every raised
exception, logs it, and returns `None` — exactly what it returns for an
absent or inactive definition. -/
def obtener_servicio_externo_por_codigo
    (queryResult : Except String (Option Servicio)) : Option Servicio :=
  match queryResult with
  | Except.ok row => row
  | Except.error _ => none

/-- `ExternalClient.from_code`: loads the definition through the
repository and raises `ValueError` (embedded as `Except.error` with the
message text) when nothing is returned; otherwise builds the client from
the row's fields (`metodo` upper-cased by `__init__`, empty
`dynamic_values`). -/
def ExternalClient.from_code (codigo : String)
    (queryResult : Except String (Option Servicio)) : Except String ExternalClient :=
  match obtener_servicio_externo_por_codigo queryResult with
  | none => Except.error ("Servicio externo \x27" ++ codigo ++ "\x27 no encontrado en BD")
  | some s =>
    Except.ok ⟨s.nombre_servicio, s.codigo, s.url, s.metodo.toUpper, s.timeout_ms, s.reintentos, s.header, s.body, []⟩

/-- The module-level `TOKEN_DATA` cache slot of src/utils/config.py:
`access_token` (initially `None`) and `expires_at` (initially 0).  The
`refresh_token` field is never read or written by the code under
verification and is omitted. -/
structure TokenState where
  access_token : Option Value
  expires_at : Nat

/-- The cache check on entry to `obtener_token`:
`TOKEN_DATA.get("access_token") and TOKEN_DATA.get("expires_at", 0) > int(time.time()) + 30`.
The safety margin is the hard-coded 30 seconds. -/
def cache_token_valid (now : Nat) (st : TokenState) : Bool :=
  truthyOpt st.access_token && decide (now + 30 < st.expires_at)

/-- What the refresh path of `obtener_token` encounters past the cache
check: `db` is `some outcome` when `AUTH_TOKEN` was found in the
database and `ExternalClient.run` produced `outcome`, and `none` when
`from_code` raised `ValueError`; `fallback` is what the direct fallback
request's `resp.json()` yields (or the exception it raises) if the
fallback is reached — either because `from_code` raised `ValueError` or
because `int(expires)` did. -/
structure RefreshEnv where
  db : Option RunOutcome
  fallback : Except String Value

/-- Result of one `obtener_token` call: the returned token (`none` models
Python `None`), or a raised exception with its message; plus the
`TOKEN_DATA` state after the call and whether any network request was
issued. -/
structure ObtResult where
  result : Except String (Option Value)
  state : TokenState
  usedNetwork : Bool

/-- The two exception classes `int(...)` can raise: `ValueError` for a
string that is not an integer literal, `TypeError` for a non-int,
non-bool, non-string argument. -/
inductive PyIntErr where
  | valueError : PyIntErr
  | typeError : PyIntErr

/-- Decimal value of a list of ASCII digits. -/
def digitsVal (ds : List Char) : Nat :=
  ds.foldl (fun acc c => acc * 10 + (c.toNat - 48)) 0

/-- The tail of a Python integer literal after its first digit: digits
with single underscores allowed only between digits (PEP 515); returns
the digits with underscores stripped, or `none` when invalid. -/
def pyDigitsTail : List Char → Option (List Char)
  | [] => some []
  | '_' :: c :: rest =>
    if c.isDigit then (pyDigitsTail rest).map (fun ds => c :: ds) else none
  | c :: rest =>
    if c.isDigit then (pyDigitsTail rest).map (fun ds => c :: ds) else none

/-- The digits of a Python integer literal: a first digit followed by a
valid tail. -/
def pyLiteralDigits : List Char → Option Nat
  | c :: rest =>
    if c.isDigit then (pyDigitsTail rest).map (fun ds => digitsVal (c :: ds)) else none
  | [] => none

/-- Strip leading and trailing whitespace from a character list (what
`int(...)` does to its string argument before parsing). -/
def stripEnds (cs : List Char) : List Char :=
  ((cs.dropWhile Char.isWhitespace).reverse.dropWhile Char.isWhitespace).reverse

/-- Python `int(s)` on a string: strips surrounding whitespace, accepts
an optional sign followed by ASCII digits (with PEP 515 underscores),
and fails (`ValueError`) on anything else.  Non-ASCII Unicode decimal
digits and exotic Unicode whitespace, which Python also accepts, do not
occur in this code base and are not modelled. -/
def pyIntOfString (s : String) : Option Int :=
  match stripEnds s.data with
  | '+' :: rest => (pyLiteralDigits rest).map (fun n => Int.ofNat n)
  | '-' :: rest => (pyLiteralDigits rest).map (fun n => -(Int.ofNat n))
  | cs => (pyLiteralDigits cs).map (fun n => Int.ofNat n)

/-- Python `int(v)` on a JSON-like value: integers pass through, booleans
become 0/1, strings are parsed (or raise `ValueError`), and `None`,
lists and dicts raise `TypeError`. -/
def pyInt : Value → Except PyIntErr Int
  | Value.vInt n => Except.ok n
  | Value.vBool b => Except.ok (if b then 1 else 0)
  | Value.vStr s =>
    match pyIntOfString s with
    | some n => Except.ok n
    | none => Except.error PyIntErr.valueError
  | _ => Except.error PyIntErr.typeError

/-- The fallback path of `obtener_token` (auth.py:44-50, reached via
`except ValueError`): a direct request is made and
`data.get("access_token")` of its parsed body is returned with NO cache
write beyond `st` (which, when the fallback is reached from the
`int(expires)` `ValueError`, already holds the half-updated slot); a
non-object body raises `AttributeError` at `.get`, and an exception
from the request or the parse propagates. -/
def fallback_path (resp : Except String Value) (st : TokenState) : ObtResult :=
  match resp with
  | Except.ok (Value.vDict kvs) => ⟨Except.ok (lookupField kvs "access_token"), st, true⟩
  | Except.ok _ => ⟨Except.error "AttributeError", st, true⟩
  | Except.error m => ⟨Except.error m, st, true⟩

/-- `obtener_token` (src/utils/auth.py).  Returns the cached token when
the cache check passes, performing no network request.  Otherwise, on
the database path, a dict result with status 200 computes
`token = data.get("access_token") or data.get("token")` and then
performs the two cache writes IN SOURCE ORDER: `access_token = token`
(line 38) first, then `expires_at = now + int(expires)` (line 39) —
so when `int(expires)` raises, the slot is left half-updated (token
written, expiry untouched): a `ValueError` from a non-numeric string is
caught by `except ValueError` and routes to the fallback request, while
a `TypeError` from a non-int/str/bool value propagates.  When the
conversion succeeds the full update is stored (the expiry sum is clamped
at zero by the `Nat` state, faithful whenever `now + expires ≥ 0`) and
the token returned even when it is `None`.  A non-200 dict result raises
`Exception` (not caught — `except ValueError` does not match) leaving
the slot untouched; a `JSONResponse` or `None` run result raises
`TypeError` at the `result["status"]` subscript; a non-object 200 body
raises `AttributeError` at `.get`; and a missing `AUTH_TOKEN` definition
(`from_code`'s `ValueError`) goes straight to the fallback. -/
def obtener_token (now : Nat) (st : TokenState) (env : RefreshEnv) : ObtResult :=
  if cache_token_valid now st then ⟨Except.ok st.access_token, st, false⟩
  else
    match env.db with
    | some (RunOutcome.dictResult status data) =>
      if status = 200 then
        match data with
        | Value.vDict kvs =>
          let tok := pyOrOpt (lookupField kvs "access_token") (lookupField kvs "token")
          match pyInt ((lookupField kvs "expires_in").getD (Value.vInt 3600)) with
          | Except.ok e => ⟨Except.ok tok, ⟨tok, (Int.ofNat now + e).toNat⟩, true⟩
          | Except.error PyIntErr.valueError => fallback_path env.fallback ⟨tok, st.expires_at⟩
          | Except.error PyIntErr.typeError => ⟨Except.error "TypeError", ⟨tok, st.expires_at⟩, true⟩
        | _ => ⟨Except.error "AttributeError", st, true⟩
      else ⟨Except.error ("Error obteniendo token: " ++ toString status), st, true⟩
    | some (RunOutcome.jsonResponse _ _) => ⟨Except.error "TypeError", st, true⟩
    | some RunOutcome.fellThrough => ⟨Except.error "TypeError", st, true⟩
    | none => fallback_path env.fallback st

/-- Phase of one asyncio task running `obtener_token`.  The code from
function entry through the cache check (line 15 of src/utils/auth.py)
contains no `await`, so the check is one atomic block; everything from
the first `await` (the database load) through the cache write and the
`return` is the task's second block, whose execution performs the
network request.  A refresh is modelled as succeeding with the token the
oracle assigns to its (global) network-call index. -/
inductive AuthPhase where
  | start : AuthPhase
  | fetching : AuthPhase
  | finished : String → AuthPhase

/-- Shared state of the concurrent system: the `TOKEN_DATA` slot (token
and expiry), the count of network requests issued to the credential
endpoint, and the phase of each task. -/
structure AuthSys where
  access_token : Option String
  expires_at : Nat
  network_calls : Nat
  tasks : List AuthPhase

/-- The cache check of `obtener_token` on the shared slot. -/
def auth_cache_valid (now : Nat) (tok : Option String) (exp : Nat) : Bool :=
  match tok with
  | some t => !(t == "") && decide (now + 30 < exp)
  | none => false

/-- Run the next atomic block of task `i`: a task at its cache check
finishes with the cached token when the check passes and otherwise
suspends into the refresh; a suspended task performs the network
request, writes the token into the shared slot and finishes.  Tasks that
are already finished (and out-of-range indices) do nothing. -/
def step_task (now : Nat) (oracle : Nat → String) : AuthSys → Nat → AuthSys
  | ⟨tok, exp, calls, tasks⟩, i =>
    match tasks.get? i with
    | some AuthPhase.start =>
      if auth_cache_valid now tok exp then
        ⟨tok, exp, calls, tasks.set i (AuthPhase.finished (tok.getD ""))⟩
      else
        ⟨tok, exp, calls, tasks.set i AuthPhase.fetching⟩
    | some AuthPhase.fetching =>
      ⟨some (oracle calls), now + 3600, calls + 1,
        tasks.set i (AuthPhase.finished (oracle calls))⟩
    | _ => ⟨tok, exp, calls, tasks⟩

/-- Run a cooperative schedule: at each step the named task executes its
next atomic block. -/
def run_schedule (now : Nat) (oracle : Nat → String) (sys : AuthSys) (sched : List Nat) : AuthSys :=
  match sched with
  | [] => sys
  | i :: rest => run_schedule now oracle (step_task now oracle sys i) rest

/-- `n` concurrent callers of `obtener_token` on an empty cache, under
the canonical asyncio schedule: every task reaches its first `await`
(and hence has already executed its cache check) before any refresh
completes. -/
def concurrent_refresh (now : Nat) (oracle : Nat → String) (n : Nat) : AuthSys :=
  run_schedule now oracle ⟨none, 0, 0, List.replicate n AuthPhase.start⟩
    (List.range n ++ List.range n)

/-- The tokens the finished callers received. -/
def finished_tokens (sys : AuthSys) : List String :=
  sys.tasks.filterMap (fun p => match p with
    | AuthPhase.finished t => some t
    | _ => none)

/-- The literal placeholder text for a name: `\x7b` ++ name ++ `\x7d`
(what `match.group(0)` holds when the token name is `name`). -/
def braced (name : String) : String := "\x7b" ++ name ++ "\x7d"

/-- Whether a transport result is a response the loop treats as success
(`response.status_code == 200 or response.status_code == 201`). -/
def is_success_response : TransportResult → Bool
  | TransportResult.response code _ _ => decide (code = 200 ∨ code = 201)
  | _ => false

theorem runLoop_all_connection (transport : Nat → TransportResult)
    (h : ∀ i, transport i = TransportResult.connectionErr) :
    ∀ r a, runLoop transport a r
      = ⟨RunOutcome.dictResult 503 (error_data "No se pudo conectar con el servicio externo"), r + 1, r⟩ := by
  intro r
  induction r with
  | zero => intro a; simp [runLoop, h a, last_attempt_outcome]
  | succ n ih => intro a; simp [runLoop, h a, ih (a + 1)]

theorem runLoop_all_nonsuccess_response (transport : Nat → TransportResult)
    (h : ∀ i, ∃ code body text, transport i = TransportResult.response code body text
      ∧ ¬(code = 200 ∨ code = 201)) :
    ∀ r a, runLoop transport a r = ⟨RunOutcome.fellThrough, r + 1, 0⟩ := by
  intro r
  induction r with
  | zero =>
    intro a
    obtain ⟨code, body, text, htr, hns⟩ := h a
    simp [runLoop, htr, last_attempt_outcome, if_neg hns]
  | succ n ih =>
    intro a
    obtain ⟨code, body, text, htr, hns⟩ := h a
    simp [runLoop, htr, if_neg hns, ih (a + 1)]

theorem runLoop_first_success (transport : Nat → TransportResult)
    (code : Nat) (body : Option Value) (text : String) (a : Nat)
    (htr : transport a = TransportResult.response code body text)
    (hc : code = 200 ∨ code = 201) :
    ∀ r, runLoop transport a r = ⟨RunOutcome.dictResult code (extract_response_data body), 1, 0⟩ := by
  intro r
  cases r with
  | zero => simp [runLoop, htr, last_attempt_outcome, if_pos hc]
  | succ n => simp [runLoop, htr, if_pos hc]

theorem runLoop_outcome_of_last (transport : Nat → TransportResult) :
    ∀ r a, (∀ k, k < r → is_success_response (transport (a + k)) = false) →
      (runLoop transport a r).outcome = last_attempt_outcome (transport (a + r)) := by
  intro r
  induction r with
  | zero => intro a _; simp [runLoop]
  | succ n ih =>
    intro a h
    have h0 : is_success_response (transport a) = false := by
      have := h 0 (by omega)
      simpa using this
    have hrest : ∀ k, k < n → is_success_response (transport (a + 1 + k)) = false := by
      intro k hk
      have := h (k + 1) (by omega)
      have harith : a + (k + 1) = a + 1 + k := by omega
      rwa [harith] at this
    have hsum : a + 1 + n = a + (n + 1) := by omega
    cases htr : transport a with
    | response code body text =>
      have hns : ¬(code = 200 ∨ code = 201) := by
        rw [htr] at h0
        simpa [is_success_response] using h0
      rw [← hsum, ← ih (a + 1) hrest]
      simp [runLoop, htr, if_neg hns]
    | timeoutErr =>
      rw [← hsum, ← ih (a + 1) hrest]
      simp [runLoop, htr]
    | connectionErr =>
      rw [← hsum, ← ih (a + 1) hrest]
      simp [runLoop, htr]
    | otherErr msg =>
      rw [← hsum, ← ih (a + 1) hrest]
      simp [runLoop, htr]

/-- Claim C1, counterexample: with `max_retries = 2` and a transport that
answers HTTP 404 on every attempt, `ExternalClient.run` does NOT stop
after a single attempt with a `ClientError`: it issues all 3 attempts
(consuming both retries) and returns `None` (no classified failure at
all), because the non-2xx branch only logs and the loop continues. -/
theorem C1_counterexample :
    ExternalClient.run (clientWithRetries 2)
        (fun _ => TransportResult.response 404 none "Not Found")
      = ⟨RunOutcome.fellThrough, 3, 0⟩ := rfl

/-- Claim C1, amended: a 4xx response is not terminal and produces no
`ClientError` result.  Whenever every attempt of a run receives a 4xx
response, the loop consumes all `reintentos` remaining retries (issuing
`reintentos + 1` attempts in total, with no backoff sleep between them)
and the function falls off the end of the loop, returning `None`. -/
theorem C1_amended (c : ExternalClient) (transport : Nat → TransportResult)
    (h : ∀ i, ∃ code body text, transport i = TransportResult.response code body text
      ∧ 400 ≤ code ∧ code < 500) :
    ExternalClient.run c transport = ⟨RunOutcome.fellThrough, c.reintentos + 1, 0⟩ := by
  apply runLoop_all_nonsuccess_response
  intro i
  obtain ⟨code, body, text, htr, h4a, h4b⟩ := h i
  exact ⟨code, body, text, htr, by omega⟩

theorem C1_amended_witness :
    ExternalClient.run (clientWithRetries 1)
        (fun _ => TransportResult.response 404 none "NF")
      = ⟨RunOutcome.fellThrough, 2, 0⟩ := by
  have h := C1_amended (clientWithRetries 1)
    (fun _ => TransportResult.response 404 none "NF")
    (fun _ => ⟨404, none, "NF", rfl, by omega, by omega⟩)
  simpa using h

/-- Claim C2 (confirmed): for a definition with `reintentos = N`, a
transport that raises a connection error on every attempt makes
`ExternalClient.run` issue exactly `N + 1` attempts, with a backoff sleep
between each consecutive pair (`N` sleeps), and return the 503
connection-failure classification. -/
theorem C2_retry_bound (c : ExternalClient) (transport : Nat → TransportResult)
    (h : ∀ i, transport i = TransportResult.connectionErr) :
    ExternalClient.run c transport
      = ⟨RunOutcome.dictResult 503 (error_data "No se pudo conectar con el servicio externo"),
          c.reintentos + 1, c.reintentos⟩ :=
  runLoop_all_connection transport h c.reintentos 0

theorem C2_retry_bound_witness :
    ExternalClient.run (clientWithRetries 2) (fun _ => TransportResult.connectionErr)
      = ⟨RunOutcome.dictResult 503 (error_data "No se pudo conectar con el servicio externo"), 3, 2⟩ := by
  have h := C2_retry_bound (clientWithRetries 2)
    (fun _ => TransportResult.connectionErr) (fun _ => rfl)
  simpa using h

/-- Claim C3, counterexample: with `max_retries = 1` and a transport that
answers HTTP 500 on both attempts, all attempts are exhausted without
success and yet `ExternalClient.run` returns no `ServerError`
classification — it returns `None` (the 5xx branch only logs, and the
loop ends without a return). -/
theorem C3_counterexample :
    ExternalClient.run (clientWithRetries 1)
        (fun _ => TransportResult.response 500 none "Internal Server Error")
      = ⟨RunOutcome.fellThrough, 2, 0⟩ := rfl

/-- Claim C3, amended: when no attempt before the last one is a 200/201
response, the value `ExternalClient.run` returns is exactly the
classification of the LAST attempt's transport result: the success dict
for 200/201, a 504 `JSONResponse` for a timeout, the 503 dict for a
connection error, the 500 dict for an unexpected exception — but `None`
(no classification at all) when the last attempt received a non-success
HTTP response. -/
theorem C3_amended (c : ExternalClient) (transport : Nat → TransportResult)
    (h : ∀ k, k < c.reintentos → is_success_response (transport k) = false) :
    (ExternalClient.run c transport).outcome = last_attempt_outcome (transport c.reintentos) := by
  have := runLoop_outcome_of_last transport c.reintentos 0 (by intro k hk; simpa using h k hk)
  simpa using this

theorem C3_amended_witness :
    (ExternalClient.run (clientWithRetries 1)
        (fun i => if i = 0 then TransportResult.connectionErr else TransportResult.timeoutErr)).outcome
      = RunOutcome.jsonResponse 504 (error_data "Timeout al conectar con el servicio externo") := by
  have h := C3_amended (clientWithRetries 1)
    (fun i => if i = 0 then TransportResult.connectionErr else TransportResult.timeoutErr)
    (by
      intro k hk
      have hk0 : k = 0 := by simpa [clientWithRetries] using hk
      subst hk0
      rfl)
  simpa [clientWithRetries, last_attempt_outcome] using h

/-- Claim C8, counterexample: HTTP 204 is a 2xx status, but with
`max_retries = 1` a transport answering 204 with a well-formed JSON body
on every attempt is NOT classified as a success: the success test is
`status_code == 200 or status_code == 201`, so the run treats 204 as an
error, re-attempts, and finally returns `None`. -/
theorem C8_counterexample :
    ExternalClient.run (clientWithRetries 1)
        (fun _ => TransportResult.response 204 (some (Value.vDict [("data", Value.vStr "ok")])) "")
      = ⟨RunOutcome.fellThrough, 2, 0⟩ := rfl

/-- Claim C8, amended: only statuses 200 and 201 are treated as success.
A first-attempt 200/201 response stops the run immediately (exactly one
attempt, no sleep) and returns a dict whose payload is the `data` member
of the JSON-parsed body (the empty dict when the body is not a JSON
object or lacks a `data` member — not the parsed body itself, and never
the raw text).  Every other 2xx status is handled by the error branch:
the attempts are exhausted and the run returns `None`. -/
theorem C8_amended :
    (∀ (c : ExternalClient) (transport : Nat → TransportResult) code body text,
      (code = 200 ∨ code = 201) → transport 0 = TransportResult.response code body text →
      ExternalClient.run c transport = ⟨RunOutcome.dictResult code (extract_response_data body), 1, 0⟩)
    ∧ (∀ (c : ExternalClient) (transport : Nat → TransportResult) code body text,
      200 ≤ code → code < 300 → code ≠ 200 → code ≠ 201 →
      (∀ i, transport i = TransportResult.response code body text) →
      ExternalClient.run c transport = ⟨RunOutcome.fellThrough, c.reintentos + 1, 0⟩) := by
  constructor
  · intro c transport code body text hc htr
    exact runLoop_first_success transport code body text 0 htr hc c.reintentos
  · intro c transport code body text h1 h2 h3 h4 htr
    apply runLoop_all_nonsuccess_response
    intro i
    exact ⟨code, body, text, htr i, by omega⟩

theorem C8_amended_witness :
    ExternalClient.run (clientWithRetries 5)
        (fun _ => TransportResult.response 200 (some (Value.vDict [("data", Value.vStr "payload")])) "")
      = ⟨RunOutcome.dictResult 200 (Value.vStr "payload"), 1, 0⟩
    ∧ ExternalClient.run (clientWithRetries 1)
        (fun _ => TransportResult.response 299 (some (Value.vDict [])) "")
      = ⟨RunOutcome.fellThrough, 2, 0⟩ := by
  constructor
  · have h := C8_amended.1 (clientWithRetries 5)
      (fun _ => TransportResult.response 200 (some (Value.vDict [("data", Value.vStr "payload")])) "")
      200 (some (Value.vDict [("data", Value.vStr "payload")])) "" (Or.inl rfl) rfl
    simpa [extract_response_data, lookupField] using h
  · have h := C8_amended.2 (clientWithRetries 1)
      (fun _ => TransportResult.response 299 (some (Value.vDict [])) "")
      299 (some (Value.vDict [])) "" (by omega) (by omega) (by omega) (by omega) (fun _ => rfl)
    simpa using h

/-- Claim C9, counterexample: a 200 response whose body is not parseable
JSON is returned by `ExternalClient.run` as a SUCCESS dict with status
200 and an empty `data` payload — not as any `MalformedResponse` failure
classification (the bare `except` silently replaces the parse failure
with `\x7b"raw_text": ...\x7d`, whose `data` member is empty). -/
theorem C9_counterexample :
    ExternalClient.run (clientWithRetries 3)
        (fun _ => TransportResult.response 200 none "plain text, not JSON")
      = ⟨RunOutcome.dictResult 200 (Value.vDict []), 1, 0⟩ := rfl

/-- Claim C9, amended: a success-status (200/201) response with an
unparseable body yields a normal success result whose payload is the
empty dict; there is no `MalformedResponse` classification, the raw body
text is not surfaced to the caller, and the run still stops after the
single attempt. -/
theorem C9_amended (c : ExternalClient) (transport : Nat → TransportResult)
    (code : Nat) (text : String)
    (hc : code = 200 ∨ code = 201)
    (htr : transport 0 = TransportResult.response code none text) :
    ExternalClient.run c transport = ⟨RunOutcome.dictResult code (Value.vDict []), 1, 0⟩ := by
  have h := runLoop_first_success transport code none text 0 htr hc c.reintentos
  simpa [extract_response_data] using h

theorem C9_amended_witness :
    ExternalClient.run (clientWithRetries 2)
        (fun _ => TransportResult.response 201 none "<html>not json</html>")
      = ⟨RunOutcome.dictResult 201 (Value.vDict []), 1, 0⟩ := by
  have h := C9_amended (clientWithRetries 2)
    (fun _ => TransportResult.response 201 none "<html>not json</html>")
    201 "<html>not json</html>" (Or.inr rfl) rfl
  simpa using h

/-- Claim C4, counterexample: 10 concurrent callers of `obtener_token` on
an empty cache, under the canonical asyncio interleaving (every caller
executes its cache check — which contains no suspension point — before
any refresh completes), perform 10 network calls to the credential
endpoint, not at most one, and receive the 10 distinct tokens the
endpoint issued — not all the same token.  There is no lock or
single-flight guard anywhere in `obtener_token`. -/
theorem C4_counterexample :
    (concurrent_refresh 0 (fun k => toString k) 10).network_calls = 10
    ∧ finished_tokens (concurrent_refresh 0 (fun k => toString k) 10)
        = ["0", "1", "2", "3", "4", "5", "6", "7", "8", "9"]
    ∧ (concurrent_refresh 0 (fun k => toString k) 10).access_token = some "9"
    ∧ ¬((concurrent_refresh 0 (fun k => toString k) 10).network_calls ≤ 1) := by
  refine ⟨rfl, rfl, rfl, ?_⟩
  have h : (concurrent_refresh 0 (fun k => toString k) 10).network_calls = 10 := rfl
  omega

/-- Claim C4, amended: the refresh path of `obtener_token` has no
single-flight guard.  When 10 concurrent callers find the cache slot
empty before any refresh completes, every one of them performs its own
network call — 10 calls in total — and each caller receives the token
its own call issued, so callers receive different tokens whenever the
endpoint issues different tokens; the last completed refresh (the 10th
issued token) is what remains in the cache slot, with its expiry. -/
theorem C4_amended (now : Nat) (oracle : Nat → String) :
    (concurrent_refresh now oracle 10).network_calls = 10
    ∧ finished_tokens (concurrent_refresh now oracle 10) = (List.range 10).map oracle
    ∧ (concurrent_refresh now oracle 10).access_token = some (oracle 9)
    ∧ (concurrent_refresh now oracle 10).expires_at = now + 3600 :=
  ⟨rfl, rfl, rfl, rfl⟩

theorem fallback_path_usedNetwork (resp : Except String Value) (st : TokenState) :
    (fallback_path resp st).usedNetwork = true := by
  rcases resp with m | v
  · rfl
  · cases v <;> rfl

/-- Claim C5, counterexample: a refresh that the token endpoint answers
with status 200 but an empty JSON object stores `None` into the
`TOKEN_DATA` cache slot (clobbering the previous token `"old"`) and
pushes `expires_at` an hour forward — an empty token value IS cached,
contradicting the claim that a failed or empty token is never stored. -/
theorem C5_counterexample :
    obtener_token 1000 ⟨some (Value.vStr "old"), 100⟩
        ⟨some (RunOutcome.dictResult 200 (Value.vDict [])), Except.error "unreached"⟩
      = ⟨Except.ok none, ⟨none, 4600⟩, true⟩
    ∧ (some (Value.vStr "old") : Option Value) ≠ none := by
  refine ⟨rfl, ?_⟩
  intro h
  cases h

/-- Claim C5, amended: when the refresh fails before the cache writes —
the endpoint answers with a non-200 status, or `ExternalClient.run`
returns a `JSONResponse` or `None` (raising `TypeError` at the
subscript), or the missing-definition fallback request raises —
`obtener_token` propagates an exception to its caller and leaves the
`TOKEN_DATA` slot exactly as it was.  But the two cache writes are not
atomic and nothing guards the token value: (a) a status-200 response
whose body lacks a truthy `access_token`/`token` member stores `None`
(an empty token) into the slot; (b) when `int(expires_in)` raises
`ValueError` (non-numeric string), the token write has already happened,
so the slot is left half-updated (token overwritten, expiry untouched)
and execution continues into the fallback request; (c) when it raises
`TypeError` (null/list/dict), the exception propagates with the slot
likewise half-updated. -/
theorem C5_amended (now : Nat) (st : TokenState)
    (hmiss : cache_token_valid now st = false) :
    (∀ status data fb, status ≠ 200 →
      obtener_token now st ⟨some (RunOutcome.dictResult status data), fb⟩
        = ⟨Except.error ("Error obteniendo token: " ++ toString status), st, true⟩)
    ∧ (∀ s d fb, obtener_token now st ⟨some (RunOutcome.jsonResponse s d), fb⟩
        = ⟨Except.error "TypeError", st, true⟩)
    ∧ (∀ fb, obtener_token now st ⟨some RunOutcome.fellThrough, fb⟩
        = ⟨Except.error "TypeError", st, true⟩)
    ∧ (∀ m, obtener_token now st ⟨none, Except.error m⟩
        = ⟨Except.error m, st, true⟩)
    ∧ (∀ kvs fb e, pyOrOpt (lookupField kvs "access_token") (lookupField kvs "token") = none →
      pyInt ((lookupField kvs "expires_in").getD (Value.vInt 3600)) = Except.ok e →
      0 ≤ e →
      obtener_token now st ⟨some (RunOutcome.dictResult 200 (Value.vDict kvs)), fb⟩
        = ⟨Except.ok none, ⟨none, now + e.toNat⟩, true⟩)
    ∧ (∀ kvs fb,
      pyInt ((lookupField kvs "expires_in").getD (Value.vInt 3600))
        = Except.error PyIntErr.valueError →
      obtener_token now st ⟨some (RunOutcome.dictResult 200 (Value.vDict kvs)), fb⟩
        = fallback_path fb
            ⟨pyOrOpt (lookupField kvs "access_token") (lookupField kvs "token"), st.expires_at⟩)
    ∧ (∀ kvs fb,
      pyInt ((lookupField kvs "expires_in").getD (Value.vInt 3600))
        = Except.error PyIntErr.typeError →
      obtener_token now st ⟨some (RunOutcome.dictResult 200 (Value.vDict kvs)), fb⟩
        = ⟨Except.error "TypeError",
            ⟨pyOrOpt (lookupField kvs "access_token") (lookupField kvs "token"), st.expires_at⟩,
            true⟩) := by
  refine ⟨?_, ?_, ?_, ?_, ?_, ?_, ?_⟩
  · intro status data fb hs
    simp [obtener_token, hmiss, hs]
  · intro s d fb
    simp [obtener_token, hmiss]
  · intro fb
    simp [obtener_token, hmiss]
  · intro m
    simp [obtener_token, hmiss, fallback_path]
  · intro kvs fb e htok hpi he
    simp [obtener_token, hmiss, htok, hpi]
    omega
  · intro kvs fb hpi
    simp [obtener_token, hmiss, hpi]
  · intro kvs fb hpi
    simp [obtener_token, hmiss, hpi]

theorem C5_amended_witness :
    obtener_token 1000 ⟨some (Value.vStr "old"), 100⟩
        ⟨some (RunOutcome.dictResult 503 (error_data "down")), Except.error "unreached"⟩
      = ⟨Except.error "Error obteniendo token: 503", ⟨some (Value.vStr "old"), 100⟩, true⟩
    ∧ obtener_token 1000 ⟨some (Value.vStr "old"), 100⟩
        ⟨some (RunOutcome.dictResult 200 (Value.vDict [("expires_in", Value.vStr "60")])),
          Except.error "unreached"⟩
      = ⟨Except.ok none, ⟨none, 1060⟩, true⟩
    ∧ obtener_token 1000 ⟨some (Value.vStr "old"), 100⟩
        ⟨some (RunOutcome.dictResult 200
            (Value.vDict [("token", Value.vStr "fresh"), ("expires_in", Value.vStr "not a number")])),
          Except.ok (Value.vDict [("access_token", Value.vStr "fb-tok")])⟩
      = ⟨Except.ok (some (Value.vStr "fb-tok")), ⟨some (Value.vStr "fresh"), 100⟩, true⟩
    ∧ obtener_token 1000 ⟨some (Value.vStr "old"), 100⟩
        ⟨some (RunOutcome.dictResult 200
            (Value.vDict [("token", Value.vStr "fresh"), ("expires_in", Value.vNull)])),
          Except.error "unreached"⟩
      = ⟨Except.error "TypeError", ⟨some (Value.vStr "fresh"), 100⟩, true⟩ := by
  have h := C5_amended 1000 ⟨some (Value.vStr "old"), 100⟩ (by decide)
  refine ⟨?_, ?_, ?_, ?_⟩
  · simpa using h.1 503 (error_data "down") (Except.error "unreached") (by omega)
  · have h5 := h.2.2.2.2.1
      [("expires_in", Value.vStr "60")]
      (Except.error "unreached") 60 ?_ ?_ ?_
    · simpa using h5
    · rfl
    · rfl
    · omega
  · have h6 := h.2.2.2.2.2.1
      [("token", Value.vStr "fresh"), ("expires_in", Value.vStr "not a number")]
      (Except.ok (Value.vDict [("access_token", Value.vStr "fb-tok")])) rfl
    simpa [pyOrOpt, lookupField, valueTruthy, fallback_path] using h6
  · have h7 := h.2.2.2.2.2.2
      [("token", Value.vStr "fresh"), ("expires_in", Value.vNull)]
      (Except.error "unreached") rfl
    simpa [pyOrOpt, lookupField, valueTruthy] using h7

/-- Claim C6 (confirmed, with the code's hard-coded safety margin of 30
seconds): when the cache slot holds a truthy token, `obtener_token`
returns it without any network request exactly when
`now + 30 < expires_at` holds at the time of the call; in particular a
token with `expires_at = now + 29` triggers a network refresh and one
with `expires_at = now + 31` is reused with no network call, leaving
the slot untouched. -/
theorem C6_expiry_boundary (now : Nat) (st : TokenState) (env : RefreshEnv)
    (v : Value) (hv : st.access_token = some v) (ht : valueTruthy v = true) :
    ((obtener_token now st env).usedNetwork = false ↔ now + 30 < st.expires_at)
    ∧ (now + 30 < st.expires_at →
        obtener_token now st env = ⟨Except.ok (some v), st, false⟩) := by
  by_cases hexp : now + 30 < st.expires_at
  · have hvalid : cache_token_valid now st = true := by
      simp [cache_token_valid, hv, truthyOpt, ht, hexp]
    constructor
    · simp [obtener_token, hvalid, hexp, hv]
    · intro _
      simp [obtener_token, hvalid, hv]
  · have hinvalid : cache_token_valid now st = false := by
      simp [cache_token_valid, hv, truthyOpt, ht, hexp]
    constructor
    · rcases env with ⟨db, fb⟩
      rcases db with _ | outcome
      · simp [obtener_token, hinvalid, hexp, fallback_path_usedNetwork]
      · rcases outcome with ⟨status, data⟩ | ⟨s, d⟩ | _
        · by_cases hs : status = 200
          · subst hs
            rcases data with _ | b | n | s | items | kvs
            · simp [obtener_token, hinvalid, hexp]
            · simp [obtener_token, hinvalid, hexp]
            · simp [obtener_token, hinvalid, hexp]
            · simp [obtener_token, hinvalid, hexp]
            · simp [obtener_token, hinvalid, hexp]
            · cases hpi : pyInt ((lookupField kvs "expires_in").getD (Value.vInt 3600)) with
              | ok e => simp [obtener_token, hinvalid, hexp, hpi]
              | error err =>
                cases err
                · simp [obtener_token, hinvalid, hexp, hpi, fallback_path_usedNetwork]
                · simp [obtener_token, hinvalid, hexp, hpi]
          · simp [obtener_token, hinvalid, hexp, hs]
        · simp [obtener_token, hinvalid, hexp]
        · simp [obtener_token, hinvalid, hexp]
    · intro hc
      exact absurd hc hexp

theorem C6_expiry_boundary_witness :
    obtener_token 100 ⟨some (Value.vStr "tok"), 131⟩ ⟨some RunOutcome.fellThrough, Except.error "e"⟩
      = ⟨Except.ok (some (Value.vStr "tok")), ⟨some (Value.vStr "tok"), 131⟩, false⟩
    ∧ (obtener_token 100 ⟨some (Value.vStr "tok"), 129⟩
        ⟨some RunOutcome.fellThrough, Except.error "e"⟩).usedNetwork = true := by
  constructor
  · exact (C6_expiry_boundary 100 ⟨some (Value.vStr "tok"), 131⟩
      ⟨some RunOutcome.fellThrough, Except.error "e"⟩ (Value.vStr "tok") rfl (by decide)).2 (by decide)
  · have h := (C6_expiry_boundary 100 ⟨some (Value.vStr "tok"), 129⟩
      ⟨some RunOutcome.fellThrough, Except.error "e"⟩ (Value.vStr "tok") rfl (by decide)).1
    rcases hb : (obtener_token 100 ⟨some (Value.vStr "tok"), 129⟩
        ⟨some RunOutcome.fellThrough, Except.error "e"⟩).usedNetwork with _ | _
    · exact absurd (h.mp hb) (by decide)
    · rfl

/-- Claim C10 (confirmed): `obtener_servicio_externo_por_codigo` swallows
every exception raised by the persistence query and returns `None`, so
`ExternalClient.from_code` raises exactly the same
"Servicio externo ... no encontrado en BD" `ValueError` for a storage
failure as for a genuinely absent (or inactive) definition — the two
situations are indistinguishable at the engine boundary. -/
theorem C10_storage_error_conflated (codigo msg : String) :
    ExternalClient.from_code codigo (Except.error msg)
        = Except.error ("Servicio externo \x27" ++ codigo ++ "\x27 no encontrado en BD")
    ∧ ExternalClient.from_code codigo (Except.ok none)
        = Except.error ("Servicio externo \x27" ++ codigo ++ "\x27 no encontrado en BD")
    ∧ obtener_servicio_externo_por_codigo (Except.error msg) = none :=
  ⟨rfl, rfl, rfl⟩

theorem varToken_close_brace (ctx : List (String × String)) (suffix : List Char) :
    ∀ tail acc : List Char, '}' ∉ tail →
      varToken ctx acc (tail ++ '}' :: suffix)
        = if acc ++ tail = [] then '{' :: '}' :: varSub ctx suffix
          else
            match lookupCtx ctx (String.mk (acc ++ tail)) with
            | some v => v.data ++ varSub ctx suffix
            | none => '{' :: ((acc ++ tail) ++ '}' :: varSub ctx suffix) := by
  intro tail
  induction tail with
  | nil =>
    intro acc _
    simp [varToken]
  | cons c cs ih =>
    intro acc h
    have hc : c ≠ '}' := fun hh => h (by simp [hh])
    have hcs : '}' ∉ cs := fun hh => h (List.mem_cons_of_mem _ hh)
    have hstep : varToken ctx acc ((c :: cs) ++ '}' :: suffix)
        = varToken ctx (acc ++ [c]) (cs ++ '}' :: suffix) := by
      simp [varToken, hc]
    rw [hstep, ih (acc ++ [c]) hcs]
    have hassoc : (acc ++ [c]) ++ cs = acc ++ c :: cs := by simp
    rw [hassoc]

theorem braced_data (name : String) : (braced name).data = '{' :: (name.data ++ '}' :: []) := by
  cases name
  rfl

theorem replace_variables_bound (ctx : List (String × String)) (name v : String)
    (hne : name ≠ "") (hnc : '}' ∉ name.data) (hl : lookupCtx ctx name = some v) :
    replace_variables ctx (braced name) = v := by
  have hd : name.data ≠ [] := by
    intro hh
    apply hne
    cases name
    simp at hh
    simp [hh]
  have hmk : String.mk name.data = name := by cases name; rfl
  unfold replace_variables
  rw [braced_data]
  have h1 : varSub ctx ('{' :: (name.data ++ '}' :: []))
      = varToken ctx [] (name.data ++ '}' :: []) := by
    simp [varSub]
  rw [h1, varToken_close_brace ctx [] name.data [] hnc]
  simp only [List.nil_append, if_neg hd, hmk, hl]
  simp [varSub]

theorem replace_variables_unbound (ctx : List (String × String)) (name : String)
    (hne : name ≠ "") (hnc : '}' ∉ name.data) (hl : lookupCtx ctx name = none) :
    replace_variables ctx (braced name) = braced name := by
  have hd : name.data ≠ [] := by
    intro hh
    apply hne
    cases name
    simp at hh
    simp [hh]
  have hmk : String.mk name.data = name := by cases name; rfl
  unfold replace_variables
  rw [braced_data]
  have h1 : varSub ctx ('{' :: (name.data ++ '}' :: []))
      = varToken ctx [] (name.data ++ '}' :: []) := by
    simp [varSub]
  rw [h1, varToken_close_brace ctx [] name.data [] hnc]
  simp only [List.nil_append, if_neg hd, hmk, hl]
  apply String.ext
  rw [braced_data]
  rfl

/-- Claim C7, counterexample: with context `id = 42`, the template
`\x7b"k": ["\x7bid\x7d"]\x7d` renders UNCHANGED — the placeholder string
sits directly inside a sequence, and the list comprehension in
`_process_dict` only recurses into mapping elements, leaving string
elements untouched, even though the same placeholder in a mapping value
position renders to `"42"`. -/
theorem C7_counterexample :
    process_dict [("id", "42")] (Value.vDict [("k", Value.vList [Value.vStr (braced "id")])])
      = Value.vDict [("k", Value.vList [Value.vStr (braced "id")])]
    ∧ replace_variables [("id", "42")] (braced "id") = "42"
    ∧ braced "id" ≠ "42" := by
  refine ⟨?_, rfl, ?_⟩
  · simp [process_dict, processFields, processItems]
  · decide

/-- Claim C7, amended: rendering preserves the shape of the template and
replaces placeholders in strings that occur as mapping values — also
inside nested mappings and inside mappings that are elements of
sequences — where a placeholder whose name is bound in the context
becomes the bound value and an unbound placeholder round-trips verbatim,
and non-string scalars are untouched; BUT a string that is directly an
element of a sequence is copied unchanged, its placeholders are NOT
substituted (and non-mapping sequence elements in general pass through
untouched). -/
theorem C7_amended :
    (∀ (ctx : List (String × String)) (k name v : String), name ≠ "" → '}' ∉ name.data →
      lookupCtx ctx name = some v →
      process_dict ctx (Value.vDict [(k, Value.vStr (braced name))])
        = Value.vDict [(k, Value.vStr v)])
    ∧ (∀ (ctx : List (String × String)) (k name : String), name ≠ "" → '}' ∉ name.data →
      lookupCtx ctx name = none →
      process_dict ctx (Value.vDict [(k, Value.vStr (braced name))])
        = Value.vDict [(k, Value.vStr (braced name))])
    ∧ (∀ (ctx : List (String × String)) (k s : String) (items : List Value),
      process_dict ctx (Value.vDict [(k, Value.vList (Value.vStr s :: items))])
        = Value.vDict [(k, Value.vList (Value.vStr s :: processItems ctx items))])
    ∧ (∀ (ctx : List (String × String)) (k : String) (kvs : List (String × Value)) (items : List Value),
      process_dict ctx (Value.vDict [(k, Value.vList (Value.vDict kvs :: items))])
        = Value.vDict [(k, Value.vList (Value.vDict (processFields ctx kvs) :: processItems ctx items))])
    ∧ (∀ (ctx : List (String × String)) (k : String) (n : Int),
      process_dict ctx (Value.vDict [(k, Value.vInt n)]) = Value.vDict [(k, Value.vInt n)])
    ∧ (∀ (ctx : List (String × String)) (k j name v : String), name ≠ "" → '}' ∉ name.data →
      lookupCtx ctx name = some v →
      process_dict ctx (Value.vDict [(k, Value.vDict [(j, Value.vStr (braced name))])])
        = Value.vDict [(k, Value.vDict [(j, Value.vStr v)])]) := by
  refine ⟨?_, ?_, ?_, ?_, ?_, ?_⟩
  · intro ctx k name v hne hnc hl
    simp [process_dict, processFields, replace_variables_bound ctx name v hne hnc hl]
  · intro ctx k name hne hnc hl
    simp [process_dict, processFields, replace_variables_unbound ctx name hne hnc hl]
  · intro ctx k s items
    simp [process_dict, processFields, processItems]
  · intro ctx k kvs items
    simp [process_dict, processFields, processItems]
  · intro ctx k n
    simp [process_dict, processFields]
  · intro ctx k j name v hne hnc hl
    simp [process_dict, processFields, replace_variables_bound ctx name v hne hnc hl]

theorem C7_amended_witness :
    process_dict [("id", "42")] (Value.vDict [("u", Value.vStr (braced "id"))])
      = Value.vDict [("u", Value.vStr "42")]
    ∧ process_dict [] (Value.vDict [("u", Value.vStr (braced "id"))])
      = Value.vDict [("u", Value.vStr (braced "id"))]
    ∧ process_dict [("id", "42")] (Value.vDict [("l", Value.vList [Value.vStr (braced "id")])])
      = Value.vDict [("l", Value.vList [Value.vStr (braced "id")])]
    ∧ process_dict [("id", "42")] (Value.vDict [("l", Value.vList [Value.vDict [("m", Value.vStr (braced "id"))]])])
      = Value.vDict [("l", Value.vList [Value.vDict [("m", Value.vStr "42")]])]
    ∧ process_dict [("id", "42")] (Value.vDict [("n", Value.vInt 7)])
      = Value.vDict [("n", Value.vInt 7)]
    ∧ process_dict [("id", "42")]
        (Value.vDict [("outer", Value.vDict [("inner", Value.vStr (braced "id"))])])
      = Value.vDict [("outer", Value.vDict [("inner", Value.vStr "42")])] := by
  refine ⟨?_, ?_, ?_, ?_, ?_, ?_⟩
  · exact C7_amended.1 [("id", "42")] "u" "id" "42" (by decide) (by decide) rfl
  · exact C7_amended.2.1 [] "u" "id" (by decide) (by decide) rfl
  · have h := C7_amended.2.2.1 [("id", "42")] "l" (braced "id") []
    simpa [processItems] using h
  · have h := C7_amended.2.2.2.1 [("id", "42")] "l" [("m", Value.vStr (braced "id"))] []
    rw [h]
    simp [processFields, processItems,
      replace_variables_bound [("id", "42")] "id" "42" (by decide) (by decide) rfl]
  · exact C7_amended.2.2.2.2.1 [("id", "42")] "n" 7
  · exact C7_amended.2.2.2.2.2 [("id", "42")] "outer" "inner" "id" "42" (by decide) (by decide) rfl
